import Mathlib

/-!
# Verification of the btsnoop event-correlation engine

A shallow embedding of the btsnoop parser (`event_base.py`,
`bluetooth_events.py`, `bluetooth_connection.py`, `bluetooth_parser.py`)
together with proofs about its behaviour.

Modelling conventions:
* pyshark packets are records of named layers, each a list of named string
  fields; `sniff_timestamp` is carried as an exact rational.
* Python exceptions become `Except PyError`; code that cannot raise is a
  plain function.
* Python `int(s, 0)` is modelled by `pyIntParse` (whitespace strip, sign,
  `0x`/`0o`/`0b` base guessing, no leading zeros on nonzero decimals;
  digit-group underscores are not modelled, none occur in the data here).
-/

/-- `EventState` constants from `event_base.py`. -/
inductive EventState where
  | not_started
  | in_progress
  | finished
  | error
deriving DecidableEq

/-- `KeyFieldSpec.PKT_LOCATION_START = 0`. -/
def PKT_LOCATION_START : Int := 0
/-- `KeyFieldSpec.PKT_LOCATION_FINISH = -1`. -/
def PKT_LOCATION_FINISH : Int := -1
/-- `KeyFieldSpec.PKT_LOCATION_ANY = 1`. -/
def PKT_LOCATION_ANY : Int := 1

/-- A Python value appearing as the expected value of a filter criterion:
the event table uses integers and strings. -/
inductive PyVal where
  | intV (n : Int)
  | strV (s : String)
deriving DecidableEq

/-- One filter criterion `(layer name, field name, expected value)`;
field name and expected value may be Python `None`. -/
def Criterion : Type := String × Option String × Option PyVal

instance : DecidableEq Criterion := by
  unfold Criterion
  infer_instance

/-- One key-field rule `(layer name, field name, packet location)`. -/
def KeyField : Type := String × String × Int

instance : DecidableEq KeyField := by
  unfold KeyField
  infer_instance

/-- A decoded record from pyshark: sequence number (assigned by the driver
via `setattr`), capture timestamp, layers with string-valued fields, and an
optional summary line. -/
structure Packet where
  tshark_seq : Nat
  sniff_timestamp : ℚ
  layers : List (String × List (String × String))
  summary_line : Option String
deriving DecidableEq

/-- `layer_name in packet` (pyshark layer containment). -/
def Packet.hasLayer (p : Packet) (layer : String) : Bool :=
  (p.layers.lookup layer).isSome

/-- `packet[layer].get(field)`: `none` when the layer or the field is
absent. -/
def Packet.getField (p : Packet) (layer field : String) : Option String :=
  (p.layers.lookup layer).bind (fun fields => fields.lookup field)

/-- `str(packet)`: pyshark's textual rendering, modelled as a deterministic
dump of the layer/field structure (the program stores it but never inspects
it). -/
def Packet.strPacket (p : Packet) : String :=
  p.layers.foldl
    (fun acc layer =>
      acc ++ layer.1 ++ ":" ++
        layer.2.foldl (fun a f => a ++ " " ++ f.1 ++ "=" ++ f.2) "" ++ "\n")
    ""

/-- `str(x)` for an optional string: Python renders `None` as the
(non-empty) string `"None"`. -/
def pyStrOpt : Option String → String
  | none => "None"
  | some s => s

/-- Value of one digit character, for bases up to 16. -/
def digitVal (c : Char) : Nat :=
  if '0' ≤ c ∧ c ≤ '9' then c.toNat - '0'.toNat
  else if 'a' ≤ c ∧ c ≤ 'f' then c.toNat - 'a'.toNat + 10
  else if 'A' ≤ c ∧ c ≤ 'F' then c.toNat - 'A'.toNat + 10
  else 16

/-- Is `c` a digit of the given base? -/
def isDigitBase (base : Nat) (c : Char) : Bool :=
  digitVal c < base

/-- Parse a non-empty run of digits in the given base. -/
def parseDigits (base : Nat) (cs : List Char) : Option Nat :=
  if cs ≠ [] ∧ cs.all (isDigitBase base) then
    some (cs.foldl (fun a c => a * base + digitVal c) 0)
  else
    none

/-- Magnitude part of Python `int(s, 0)`: base prefix guessing, and a
nonzero decimal may not start with `0` (`int("01", 0)` raises). -/
def pyIntNat : List Char → Option Nat
  | '0' :: c :: rest =>
    if c = 'x' ∨ c = 'X' then parseDigits 16 rest
    else if c = 'o' ∨ c = 'O' then parseDigits 8 rest
    else if c = 'b' ∨ c = 'B' then parseDigits 2 rest
    else if (c :: rest).all (fun d => d = '0') then some 0
    else none
  | cs => parseDigits 10 cs

/-- Python whitespace, as stripped by `int()`. -/
def isPySpace (c : Char) : Bool :=
  c = ' ' ∨ c = '\t' ∨ c = '\n' ∨ c = '\r' ∨ c = '\x0b' ∨ c = '\x0c'

/-- Strip whitespace from both ends of a character list. -/
def trimChars (cs : List Char) : List Char :=
  ((cs.dropWhile isPySpace).reverse.dropWhile isPySpace).reverse

/-- Python `int(s, 0)`: strip surrounding whitespace, optional sign, then
base-guessing magnitude.  Returns `none` where Python raises
`ValueError`. -/
def pyIntParse (s : String) : Option Int :=
  match trimChars s.toList with
  | '+' :: rest => (pyIntNat rest).map Int.ofNat
  | '-' :: rest => (pyIntNat rest).map (fun n => -(n : Int))
  | rest => (pyIntNat rest).map Int.ofNat

/-- Python substring containment on character lists. -/
def charsContains (needle : List Char) : List Char → Bool
  | [] => needle.isEmpty
  | c :: rest => needle.isPrefixOf (c :: rest) || charsContains needle rest

/-- Python `sub in s` for strings. -/
def strContains (s sub : String) : Bool :=
  charsContains sub.toList s.toList

/-- Python `s.lower()` (ASCII case folding on the character list, which is
all the event names need). -/
def pyLower (s : String) : String :=
  ⟨s.data.map Char.toLower⟩

/-!
## Field Matcher (`PacketFilter`, `event_base.py` lines 21-82)

The loop body of `PacketFilter.eval` either continues to the next
criterion, `break`s with `ret` still `True`, or sets `ret = False` and
`break`s; `StepRes` names these three outcomes.
-/

/-- Outcome of evaluating one criterion inside the `eval` loop. -/
inductive StepRes where
  | cont
  | stopTrue
  | stopFalse
deriving DecidableEq

/-- One iteration of the `eval` loop of `PacketFilter.eval`.  Note: when
the field name is `None`, or the expected value is `None` and the field is
present, the code `break`s with `ret` still `True` (it does not merely skip
to the next criterion). -/
def evalCriterion (pkt : Packet) : Criterion → StepRes
  | (layer_name, field_name, expected_value) =>
    if pkt.hasLayer layer_name then
      match field_name with
      | none => .stopTrue
      | some f =>
        match pkt.getField layer_name f with
        | none => .stopFalse
        | some value =>
          match expected_value with
          | none => .stopTrue
          | some (.intV n) =>
            match pyIntParse value with
            | none => .stopFalse
            | some m => if m = n then .cont else .stopFalse
          | some (.strV s) => if value = s then .cont else .stopFalse
    else .stopFalse

/-- The `for` loop of `PacketFilter.eval`: `ret` starts `True` and the
loop runs the criteria in order. -/
def evalGo (pkt : Packet) : List Criterion → Bool
  | [] => true
  | c :: rest =>
    match evalCriterion pkt c with
    | .cont => evalGo pkt rest
    | .stopTrue => true
    | .stopFalse => false

/-- `PacketFilter.eval`: an empty filter rejects every packet, otherwise
run the criteria loop. -/
def PacketFilter.eval (criteria : List Criterion) (pkt : Packet) : Bool :=
  if criteria = [] then false else evalGo pkt criteria

/-- `PacketFilter.is_empty`. -/
def PacketFilter.is_empty (criteria : List Criterion) : Bool :=
  criteria = []

/-!
## Event Tracker (`ConnectivityEventBase`, `event_base.py` lines 85-205)

`_key_fields` is `None` or a non-empty list in the code; both are falsy /
iterable in the same way as a plain list, so it is modelled as a list.
-/

/-- The mutable state of one `ConnectivityEventBase` instance. -/
structure Tracker where
  state : EventState
  event_start_time : Option ℚ
  event_finish_time : Option ℚ
  relevant_packets : List (Nat × Option String × String)
  event_name : String
  start_filter : List Criterion
  relevant_filter : List Criterion
  finish_filter : List Criterion
  key_fields : List KeyField
  key_field_values : List String
deriving DecidableEq

/-- `ConnectivityEventBase.__init__`: a fresh tracker. -/
def Tracker.mk' (event_name : String) (start_filter relevant_filter finish_filter : List Criterion)
    (key_fields : List KeyField) : Tracker :=
  { state := .not_started
    event_start_time := none
    event_finish_time := none
    relevant_packets := []
    event_name := event_name
    start_filter := start_filter
    relevant_filter := relevant_filter
    finish_filter := finish_filter
    key_fields := key_fields
    key_field_values := [] }

/-- `is_finished` property. -/
def Tracker.is_finished (t : Tracker) : Bool :=
  t.state = EventState.finished

/-- The condition under which one key-field rule fires in
`_add_relevant_packet`. -/
def keySpecFires (pkt_spec : Int) (is_start is_finish : Bool) : Bool :=
  pkt_spec = PKT_LOCATION_ANY ∨
    (pkt_spec = PKT_LOCATION_START ∧ is_start) ∨
    (pkt_spec = PKT_LOCATION_FINISH ∧ is_finish)

/-- The key-field loop of `_add_relevant_packet`: values appended to
`_key_field_values` by one call, in rule order.  The value is
`str(packet[layer].get(field))` — an absent field renders as `"None"` —
and is kept only when it is a non-empty string. -/
def extractKeyValues (rules : List KeyField) (pkt : Packet)
    (is_start is_finish : Bool) : List String :=
  match rules with
  | [] => []
  | (layer_name, field_name, pkt_spec) :: rest =>
    (if keySpecFires pkt_spec is_start is_finish then
      if pkt.hasLayer layer_name then
        (if pyStrOpt (pkt.getField layer_name field_name) ≠ "" then
          [pyStrOpt (pkt.getField layer_name field_name)]
        else [])
      else []
    else []) ++ extractKeyValues rest pkt is_start is_finish

/-- `ConnectivityEventBase._add_relevant_packet`. -/
def Tracker.addRelevantPacket (t : Tracker) (pkt : Packet)
    (is_start is_finish : Bool) : Tracker :=
  { t with
    relevant_packets :=
      t.relevant_packets ++ [(pkt.tshark_seq, pkt.summary_line, pkt.strPacket)]
    key_field_values :=
      t.key_field_values ++ extractKeyValues t.key_fields pkt is_start is_finish }

/-- `ConnectivityEventBase._move_to_next_state`. -/
def Tracker.moveToNextState (t : Tracker) : Tracker :=
  match t.state with
  | .not_started => { t with state := .in_progress }
  | .in_progress => { t with state := .finished }
  | _ => t

/-- `ConnectivityEventBase.update`.  The guards `if self._start_filter and
...` test the truthiness of the `PacketFilter` object, which is always
truthy, so only the `eval` call decides. -/
def Tracker.update (t : Tracker) (pkt : Packet) : Tracker :=
  match t.state with
  | .not_started =>
    if PacketFilter.eval t.start_filter pkt then
      let finish := PacketFilter.is_empty t.finish_filter
      let t1 := { t with event_start_time := some pkt.sniff_timestamp }
      let t2 := t1.addRelevantPacket pkt true finish
      let t3 := t2.moveToNextState
      if finish then
        ({ t3 with event_finish_time := some pkt.sniff_timestamp }).moveToNextState
      else t3
    else t
  | .in_progress =>
    if PacketFilter.eval t.finish_filter pkt then
      (({ t with event_finish_time := some pkt.sniff_timestamp
        }).addRelevantPacket pkt false true).moveToNextState
    else if PacketFilter.eval t.relevant_filter pkt then
      t.addRelevantPacket pkt false false
    else t
  | .finished => t
  | .error => t

/-!
## Event Specification Table and Factory (`bluetooth_events.py`)
-/

/-- One value of `_BLUETOOTH_EVENT_FILTERS`: filters are the raw criteria
lists handed to `PacketFilter` (a `None` filter or key-field list becomes
`[]`, which behaves identically). -/
structure EventSpec where
  event_name : String
  start_filter : List Criterion
  finish_filter : List Criterion
  relevant_filter : List Criterion
  key_fields : List KeyField

/-- `_BLUETOOTH_EVENT_FILTERS`, in definition order. -/
def BT_EVENTS : List (String × EventSpec) :=
  [ ("acl inquery",
      { event_name := "bluetooth acl inquery"
        start_filter := [("bthci_cmd", some "opcode", some (.intV 0x405))]
        finish_filter := [("bthci_evt", some "code", some (.intV 0x03)),
                          ("bthci_evt", some "status", some (.intV 0x00))]
        relevant_filter := []
        key_fields := [] }),
    ("acl connect",
      { event_name := "bluetooth acl connect"
        start_filter := [("bthci_evt", some "code", some (.intV 0x04))]
        finish_filter := [("bthci_evt", some "code", some (.intV 0x03)),
                          ("bthci_evt", some "status", some (.intV 0x00))]
        relevant_filter := []
        key_fields := [] }),
    ("a2dp",
      { event_name := "Bluetooth A2DP"
        start_filter := [("btavdtp", some "message_type", some (.intV 0x00)),
                         ("btavdtp", some "signal_id", some (.intV 0x01))]
        finish_filter := [("btavdtp", some "message_type", some (.intV 0x02)),
                          ("btavdtp", some "signal_id", some (.intV 0x06))]
        relevant_filter := [("btavdtp", none, none)]
        key_fields := [] }),
    ("hfp",
      { event_name := "Bluetooth HFP"
        start_filter := [("bthfp", some "command_line_prefix", some (.strV "AT"))]
        finish_filter := [("bthfp", some "at_cmd.type", some (.intV 0x0d0a))]
        relevant_filter := [("bthfp", none, none)]
        key_fields := [("bthfp", "bthfp.at_cmd", PKT_LOCATION_START),
                       ("bthfp", "bthfp.at_cmd", PKT_LOCATION_FINISH)] }),
    ("avrcp",
      { event_name := "Bluetooth AVRCP"
        start_filter := [("btavrcp", some "ctype", some (.intV 0x3)),
                         ("btavrcp", some "notification.event_id", some (.intV 0x0d))]
        finish_filter := [("btavrcp", some "ctype", some (.intV 0xf)),
                          ("btavrcp", some "notification.event_id", some (.intV 0x0d))]
        relevant_filter := [("btavrcp", none, none)]
        key_fields := [] }),
    ("rfcomm ch20",
      { event_name := "Bluetooth RFCOMM CH20"
        start_filter := [("btrfcomm", some "mcc.cmd", some (.intV 0x20)),
                         ("btrfcomm", some "mcc.channel", some (.intV 20))]
        finish_filter := [("btrfcomm", some "mcc.cmd", some (.intV 0x38)),
                          ("btrfcomm", some "mcc.channel", some (.intV 20))]
        relevant_filter := [("btrfcomm", none, none)]
        key_fields := [] }),
    ("rfcomm ch21",
      { event_name := "Bluetooth RFCOMM CH21"
        start_filter := [("btrfcomm", some "mcc.cmd", some (.intV 0x20)),
                         ("btrfcomm", some "mcc.channel", some (.intV 21))]
        finish_filter := [("btrfcomm", some "mcc.cmd", some (.intV 0x38)),
                          ("btrfcomm", some "mcc.channel", some (.intV 21))]
        relevant_filter := [("btrfcomm", none, none)]
        key_fields := [] }),
    ("sdp",
      { event_name := "Bluetooth SDP"
        start_filter := [("btsdp", some "pdu", some (.intV 0x06)),
                         ("btsdp", some "continuation_state",
                           some (.strV "Continuation State: no (00)"))]
        finish_filter := [("btsdp", some "pdu", some (.intV 0x07)),
                          ("btsdp", some "continuation_state",
                            some (.strV "Continuation State: no (00)"))]
        relevant_filter := [("btsdp", none, none)]
        key_fields := [("btsdp", "service_search_pattern", 0)] }),
    ("avrcp capability",
      { event_name := "Bluetooth AVRCP GetCapabilities"
        start_filter := [("btavrcp", some "ctype", some (.intV 0x1)),
                         ("btavrcp", some "capability", some (.intV 0x03))]
        finish_filter := [("btavrcp", some "ctype", some (.intV 0xc)),
                          ("btavrcp", some "capability", some (.intV 0x03))]
        relevant_filter := [("btavrcp", none, none)]
        key_fields := [] }),
    ("rfcomm hfp",
      { event_name := "Bluetooth HFP RFCOMM"
        start_filter := [("btrfcomm", some "channel", some (.intV 3))]
        finish_filter := [("btrfcomm", some "len", some (.intV 0))]
        relevant_filter := [("bthfp", none, none)]
        key_fields := [] }) ]

/-- Python exceptions raised by this program. -/
inductive PyError where
  | notImplemented (event_name : String)
  | btConnectionError (msg : String)
  | indexError
deriving DecidableEq

/-- `BluetoothEventFactory.create_event`: case-insensitive table lookup;
an unknown short name raises `NotImplementedError`. -/
def createEvent (event_name : String) : Except PyError Tracker :=
  match BT_EVENTS.lookup (pyLower event_name) with
  | some spec =>
    .ok (Tracker.mk' spec.event_name spec.start_filter spec.relevant_filter
      spec.finish_filter spec.key_fields)
  | none => .error (.notImplemented event_name)

/-!
## Session (`BluetoothConnection`, `bluetooth_connection.py`)
-/

/-- `_convert_handle_to_int`: `int(s, 0)` returning `None` on
`ValueError`. -/
def convertHandleToInt (handle_hex_str : String) : Option Int :=
  pyIntParse handle_hex_str

/-- `get_connection_handle`: layer priority `bthci_acl` > `bthci_evt` >
`bthci_cmd`; an empty or missing handle string yields no handle. -/
def getConnectionHandle (pkt : Packet) : Option Int :=
  let handle_str : Option String :=
    if pkt.hasLayer "bthci_acl" then pkt.getField "bthci_acl" "chandle"
    else if pkt.hasLayer "bthci_evt" then
      pkt.getField "bthci_evt" "connection_handle"
    else if pkt.hasLayer "bthci_cmd" then
      pkt.getField "bthci_cmd" "connection_handle"
    else none
  match handle_str with
  | some s => if s ≠ "" then convertHandleToInt s else none
  | none => none

/-- The state of one `BluetoothConnection`; `event_lists` is the dict of
per-event-type tracker lists in insertion order. -/
structure Connection where
  acl_connect_event : Tracker
  connection_handle : Int
  bt_addr : String
  event_lists : List (String × List Tracker)
  acl_disconnect_event : Tracker
deriving DecidableEq

/-- `is_disconnected` property (the tracker attribute is always set, so
its truthiness test always passes). -/
def Connection.is_disconnected (c : Connection) : Bool :=
  c.acl_disconnect_event.is_finished

/-- The `__init__` loop creating one singleton tracker list per event type
whose key does not contain `'acl '`. -/
def initEventLists : List (String × EventSpec) → Except PyError (List (String × List Tracker))
  | [] => .ok []
  | (evt_type, _) :: rest =>
    if strContains evt_type "acl " then initEventLists rest
    else
      match createEvent evt_type with
      | .error e => .error e
      | .ok t =>
        match initEventLists rest with
        | .error e => .error e
        | .ok tail => .ok ((evt_type, [t]) :: tail)

/-- `BluetoothConnection.__init__`: validate the creating event's key
fields, then build the per-type tracker lists and the teardown tracker. -/
def mkBluetoothConnection (acl_connect_event : Tracker) : Except PyError Connection :=
  if acl_connect_event.key_field_values.length < 2 then
    .error (.btConnectionError
      "Invalid ACL connection event, cannot create connection.")
  else
    match acl_connect_event.key_field_values with
    | kf0 :: kf1 :: _ =>
      match convertHandleToInt kf0 with
      | none =>
        .error (.btConnectionError
          "Invalid ACL connection handle, cannot create connection.")
      | some conn_handle =>
        match initEventLists BT_EVENTS with
        | .error e => .error e
        | .ok lists =>
          match createEvent "acl disconnect" with
          | .error e => .error e
          | .ok dis =>
            .ok { acl_connect_event := acl_connect_event
                  connection_handle := conn_handle
                  bt_addr := kf1
                  event_lists := lists
                  acl_disconnect_event := dis }
    | _ =>
      .error (.btConnectionError
        "Invalid ACL connection event, cannot create connection.")

/-- One iteration of the event-list loop of `BluetoothConnection.update`:
update the last tracker of the list and append a fresh one of the same
type when it finishes (`l[-1]` on an empty list would raise
`IndexError`). -/
def updateTrackerList (pkt : Packet) (evt_type : String) (l : List Tracker) :
    Except PyError (List Tracker) :=
  match l.getLast? with
  | none => .error .indexError
  | some evt =>
    let evt' := evt.update pkt
    if evt'.is_finished then
      match createEvent evt_type with
      | .error e => .error e
      | .ok fresh => .ok (l.dropLast ++ [evt', fresh])
    else
      .ok (l.dropLast ++ [evt'])

/-- The event-list loop of `BluetoothConnection.update` over the whole
dict. -/
def updateEventLists (pkt : Packet) :
    List (String × List Tracker) → Except PyError (List (String × List Tracker))
  | [] => .ok []
  | (evt_type, l) :: rest =>
    match updateTrackerList pkt evt_type l with
    | .error e => .error e
    | .ok l' =>
      match updateEventLists pkt rest with
      | .error e => .error e
      | .ok rest' => .ok ((evt_type, l') :: rest')

/-- `BluetoothConnection.update`: closed connections and records with a
missing or mismatching handle are rejected untouched; otherwise every
tracker list and the teardown tracker consume the record. -/
def Connection.update (c : Connection) (pkt : Packet) :
    Except PyError (Bool × Connection) :=
  if c.is_disconnected then .ok (false, c)
  else
    match getConnectionHandle pkt with
    | none => .ok (false, c)
    | some handle =>
      if handle = c.connection_handle then
        match updateEventLists pkt c.event_lists with
        | .error e => .error e
        | .ok lists =>
          .ok (true,
            { c with
              event_lists := lists
              acl_disconnect_event := c.acl_disconnect_event.update pkt })
      else .ok (false, c)

/-- Comparison on the sort key `event.start_time`.  Python's `sorted`
raises `TypeError` if a `None` key meets a number; every tracker the
program actually sorts is `FINISHED` with its start time set, so the
total extension (`none` first) is never exercised there. -/
def startTimeLE : Option ℚ → Option ℚ → Bool
  | none, _ => true
  | some _, none => false
  | some a, some b => a ≤ b

/-- Insert into an already sorted list after all entries with a key less
than or equal — the stable placement Python's sort gives elements taken in
their original order. -/
def insertByStartTime (t : Tracker) : List Tracker → List Tracker
  | [] => [t]
  | u :: us =>
    if startTimeLE u.event_start_time t.event_start_time then
      u :: insertByStartTime t us
    else t :: u :: us

/-- `sorted(all_events, key=lambda event: event.start_time)` as a stable
insertion sort. -/
def sortByStartTime (l : List Tracker) : List Tracker :=
  l.foldl (fun acc t => insertByStartTime t acc) []

/-- `BluetoothConnection.get_events`: all but the last instance of every
per-type list, sorted by start time, with the ACL connect event first and
the disconnect event appended only when finished. -/
def Connection.get_events (c : Connection) : List Tracker :=
  let all_events :=
    c.event_lists.foldl (fun acc pair => acc ++ pair.2.dropLast) []
  let all_events := sortByStartTime all_events
  let all_events := c.acl_connect_event :: all_events
  if c.acl_disconnect_event.is_finished then
    all_events ++ [c.acl_disconnect_event]
  else all_events

/-!
## Timeline driver (`parse_connections`, `bluetooth_parser.py` lines 12-66)
-/

/-- The inner `for connection in connection_list` loop: skip closed
connections, stop at the first connection whose `update` accepts the
record. -/
def routeRecord (pkt : Packet) : List Connection → Except PyError (List Connection)
  | [] => .ok []
  | c :: cs =>
    if c.is_disconnected then
      match routeRecord pkt cs with
      | .error e => .error e
      | .ok cs' => .ok (c :: cs')
    else
      match c.update pkt with
      | .error e => .error e
      | .ok (true, c') => .ok (c' :: cs)
      | .ok (false, c') =>
        match routeRecord pkt cs with
        | .error e => .error e
        | .ok cs' => .ok (c' :: cs')

/-- Loop state of `parse_connections`. -/
structure DriverState where
  connection_list : List Connection
  acl_inquery_event : Tracker
  acl_connect_event : Tracker

/-- One iteration of the packet loop of `parse_connections` for the `i`-th
record (1-based).  The `try/except BluetoothConnectionError/finally` is
modelled exactly: the `finally` recreation of the two trackers runs first,
so an exception it raises replaces any pending one; `NotImplementedError`
from the construction is not caught. -/
def driverStep (st : DriverState) (i : Nat) (pkt0 : Packet) :
    Except PyError DriverState :=
  let pkt := { pkt0 with tshark_seq := i }
  match routeRecord pkt st.connection_list with
  | .error e => .error e
  | .ok conns =>
    let inq := st.acl_inquery_event.update pkt
    let con := st.acl_connect_event.update pkt
    let acl_event : Option Tracker :=
      if inq.is_finished then some inq
      else if con.is_finished then some con
      else none
    match acl_event with
    | none =>
      .ok { connection_list := conns, acl_inquery_event := inq,
            acl_connect_event := con }
    | some ev =>
      let constructed := mkBluetoothConnection ev
      match createEvent "acl create" with
      | .error e => .error e
      | .ok inq' =>
        match createEvent "acl request" with
        | .error e => .error e
        | .ok con' =>
          match constructed with
          | .ok newConn =>
            .ok { connection_list := conns ++ [newConn],
                  acl_inquery_event := inq', acl_connect_event := con' }
          | .error (.btConnectionError _) =>
            .ok { connection_list := conns, acl_inquery_event := inq',
                  acl_connect_event := con' }
          | .error e => .error e

/-- The packet loop of `parse_connections`. -/
def driverLoop (st : DriverState) (i : Nat) :
    List Packet → Except PyError (List Connection)
  | [] => .ok st.connection_list
  | pkt :: rest =>
    match driverStep st (i + 1) pkt with
    | .error e => .error e
    | .ok st' => driverLoop st' (i + 1) rest

/-- `parse_connections` over an already decoded record sequence: create
the two session-independent trackers, then run the packet loop. -/
def parseConnections (records : List Packet) : Except PyError (List Connection) :=
  match createEvent "acl create" with
  | .error e => .error e
  | .ok acl_inquery_event =>
    match createEvent "acl request" with
    | .error e => .error e
    | .ok acl_connect_event =>
      driverLoop
        { connection_list := [], acl_inquery_event := acl_inquery_event,
          acl_connect_event := acl_connect_event } 0 records

/-!
## Derived predicates used by the invariant and report theorems
-/

/-- Every tracker of the list except possibly the last one is FINISHED
(the per-event-type list invariant of a session). -/
def frontFinished : List Tracker → Bool
  | [] => true
  | t :: rest => (rest.isEmpty || t.is_finished) && frontFinished rest

/-- The last tracker of the list, when there is one, is not FINISHED (a
fresh tracker is appended as soon as the last one finishes). -/
def lastNotFinished (l : List Tracker) : Bool :=
  match l.getLast? with
  | none => true
  | some t => !t.is_finished

/-- A session consuming a record stream through repeated
`BluetoothConnection.update` calls, as the driver's packet loop does
(the ownership flag is irrelevant to the session's own state). -/
def Connection.consume (c : Connection) : List Packet → Except PyError Connection
  | [] => .ok c
  | pkt :: rest =>
    match c.update pkt with
    | .error e => .error e
    | .ok (_, c') => c'.consume rest

/-!
## Concrete data used by witnesses and counterexamples
-/

/-- A FINISHED hfp-style tracker and a record that would match its start
and finish filters, used to witness the FINISHED-is-absorbing part of the
state-machine theorem. -/
def tFinishedEx : Tracker :=
  { Tracker.mk' "ev" [("bthfp", some "command_line_prefix", some (.strV "AT"))]
      [] [("bthfp", some "at_cmd.type", some (.intV 0x0d0a))] [] with
    state := EventState.finished
    event_start_time := some 1
    event_finish_time := some 2 }

/-- A record carrying both an hfp start-matching and finish-matching
field. -/
def pktHfpEx : Packet :=
  { tshark_seq := 7
    sniff_timestamp := 3
    layers := [("bthfp", [("command_line_prefix", "AT"),
                          ("at_cmd.type", "0x0d0a")])]
    summary_line := some "hfp" }

/-- A finished link-establishment tracker carrying a valid handle and
address key-field pair. -/
def aclConnEx : Tracker :=
  { Tracker.mk' "bluetooth acl connect"
      [("bthci_evt", some "code", some (.intV 0x04))] []
      [("bthci_evt", some "code", some (.intV 0x03)),
       ("bthci_evt", some "status", some (.intV 0x00))] [] with
    state := EventState.finished
    event_start_time := some 0
    event_finish_time := some 1
    key_field_values := ["0x0041", "AA:BB:CC:DD:EE:FF"] }

/-- The same link-establishment tracker with a zero (non-positive) handle
value. -/
def aclZeroHandleEx : Tracker :=
  { aclConnEx with key_field_values := ["0x0000", "AA:BB:CC:DD:EE:FF"] }

/-- A not-yet-started teardown tracker. -/
def disNotFinEx : Tracker :=
  Tracker.mk' "bluetooth acl disconnect"
    [("bthci_cmd", some "opcode", some (.intV 0x406))] []
    [("bthci_evt", some "code", some (.intV 0x05))] []

/-- An a2dp tracker caught mid-event: IN_PROGRESS with a start time. -/
def tInProgressEx : Tracker :=
  { Tracker.mk' "Bluetooth A2DP"
      [("btavdtp", some "message_type", some (.intV 0x00)),
       ("btavdtp", some "signal_id", some (.intV 0x01))]
      [("btavdtp", none, none)]
      [("btavdtp", some "message_type", some (.intV 0x02)),
       ("btavdtp", some "signal_id", some (.intV 0x06))] [] with
    state := EventState.in_progress
    event_start_time := some 2 }

/-- A session whose only per-type tracker list holds a single IN_PROGRESS
instance. -/
def connC3Ex : Connection :=
  { acl_connect_event := aclConnEx
    connection_handle := 0x41
    bt_addr := "AA:BB:CC:DD:EE:FF"
    event_lists := [("a2dp", [tInProgressEx])]
    acl_disconnect_event := disNotFinEx }

/-- A finished sdp tracker. -/
def tFinSdpEx : Tracker :=
  { Tracker.mk' "Bluetooth SDP" [] [] [] [] with
    state := EventState.finished
    event_start_time := some 2
    event_finish_time := some 3 }

/-- A fresh, not-started sdp tracker. -/
def tNSSdpEx : Tracker :=
  Tracker.mk' "Bluetooth SDP" [] [] [] []

/-- A session with one finished sdp instance followed by the current fresh
one. -/
def connC3WEx : Connection :=
  { connC3Ex with event_lists := [("sdp", [tFinSdpEx, tNSSdpEx])] }

/-- A record without any of the three handle-bearing layers. -/
def pktNoHandleEx : Packet :=
  { tshark_seq := 5
    sniff_timestamp := 9
    layers := [("btsdp", [("pdu", "0x06")])]
    summary_line := none }

/-- A filter whose first criterion is a bare-layer wildcard and whose
second criterion can never match the example record. -/
def wildcardFilterEx : List Criterion :=
  [("btavdtp", none, none), ("bthfp", some "command_line_prefix", some (.strV "AT"))]

/-- A record having only the `btavdtp` layer. -/
def pktAvdtpEx : Packet :=
  { tshark_seq := 3
    sniff_timestamp := 4
    layers := [("btavdtp", [("message_type", "0x00")])]
    summary_line := none }

/-- A tracker with a single any-location key-field rule. -/
def keyFieldTrackerEx : Tracker :=
  Tracker.mk' "kv" [] [] [] [("bthfp", "bthfp.at_cmd", PKT_LOCATION_ANY)]

/-- A record whose `bthfp` layer is present but lacks the
`bthfp.at_cmd` field. -/
def pktLayerNoFieldEx : Packet :=
  { tshark_seq := 4
    sniff_timestamp := 6
    layers := [("bthfp", [("command_line_prefix", "AT")])]
    summary_line := none }

/-- A criteria list whose single criterion matches `pktHfpEx` and
continues. -/
def preContEx : List Criterion :=
  [("bthfp", some "command_line_prefix", some (.strV "AT"))]

/-- A criterion expecting an integer where `pktHfpEx` carries the
non-numeric value `"AT"`. -/
def cParseFailEx : Criterion :=
  ("bthfp", some "command_line_prefix", some (.intV 5))

/-- A single-record event tracker: start filter matching `pktHfpEx`, empty
finish filter, and a key-field rule extracting at the finish record. -/
def singleRecTrackerEx : Tracker :=
  Tracker.mk' "sr" [("bthfp", some "command_line_prefix", some (.strV "AT"))]
    [] [] [("bthfp", "at_cmd.type", PKT_LOCATION_FINISH)]

/-!
## Generic lemmas about the tracker state machine
-/

theorem addRelevantPacket_state (t : Tracker) (pkt : Packet) (a b : Bool) :
    (t.addRelevantPacket pkt a b).state = t.state := rfl

theorem addRelevantPacket_filters (t : Tracker) (pkt : Packet) (a b : Bool) :
    (t.addRelevantPacket pkt a b).start_filter = t.start_filter ∧
    (t.addRelevantPacket pkt a b).finish_filter = t.finish_filter := ⟨rfl, rfl⟩

/-- C1: in session-oriented mode the driver asks the factory for the event
names `"acl create"` and `"acl request"`, which are not keys of the
specification table (`"acl inquery"` / `"acl connect"` are), so for every
input record sequence `parse_connections` raises `NotImplementedError`
before processing a single record; it never constructs the two
link-establishment trackers. -/
theorem C1_parse_connections_always_raises (records : List Packet) :
    parseConnections records = .error (.notImplemented "acl create") := by
  rfl

/-- C2: tracker state transitions only move forward along
NOT_STARTED → IN_PROGRESS → FINISHED, a state change happens only on a
record matching the start filter (from NOT_STARTED) or the finish filter
(from IN_PROGRESS), and a FINISHED tracker is left completely unchanged by
any further record. -/
theorem C2_tracker_state_machine (t : Tracker) (pkt : Packet) :
    ((t.update pkt).state = t.state ∨
      (t.state = EventState.not_started ∧
        PacketFilter.eval t.start_filter pkt = true ∧
        ((t.update pkt).state = EventState.in_progress ∨
          (t.update pkt).state = EventState.finished)) ∨
      (t.state = EventState.in_progress ∧
        PacketFilter.eval t.finish_filter pkt = true ∧
        (t.update pkt).state = EventState.finished)) ∧
    (t.state = EventState.finished → t.update pkt = t) := by
  constructor
  · cases ht : t.state with
    | not_started =>
      by_cases hs : PacketFilter.eval t.start_filter pkt
      · refine Or.inr (Or.inl ⟨rfl, hs, ?_⟩)
        simp only [Tracker.update, ht, hs, if_true]
        by_cases hf : PacketFilter.is_empty t.finish_filter
        · right
          simp [hf, Tracker.moveToNextState, addRelevantPacket_state]
        · left
          simp [hf, Tracker.moveToNextState, addRelevantPacket_state]
      · left
        simp [Tracker.update, ht, hs]
    | in_progress =>
      by_cases hf : PacketFilter.eval t.finish_filter pkt
      · refine Or.inr (Or.inr ⟨rfl, hf, ?_⟩)
        simp [Tracker.update, ht, hf, Tracker.moveToNextState,
          addRelevantPacket_state]
      · left
        by_cases hr : PacketFilter.eval t.relevant_filter pkt
        · simp [Tracker.update, ht, hf, hr, addRelevantPacket_state]
        · simp [Tracker.update, ht, hf, hr]
    | finished => left; simp [Tracker.update, ht]
    | error => left; simp [Tracker.update, ht]
  · intro h
    simp [Tracker.update, h]

theorem C2_tracker_state_machine_witness :
    tFinishedEx.state = EventState.finished ∧
      tFinishedEx.update pktHfpEx = tFinishedEx :=
  ⟨rfl, (C2_tracker_state_machine tFinishedEx pktHfpEx).2 rfl⟩

/-- C4 counterexample: the filter's first criterion is a bare-layer
wildcard (layer present, field name unset) and its second criterion fails
(its layer is absent), yet `eval` returns `true`: a wildcard criterion does
not advance to the next criterion, it ends evaluation with `ret = True`. -/
theorem C4_wildcard_short_circuits_counterexample :
    PacketFilter.eval wildcardFilterEx pktAvdtpEx = true ∧
      pktAvdtpEx.hasLayer "bthfp" = false := by
  decide

/-- C4 (amended): criteria are evaluated in order and the first failing
criterion yields `false`, but a criterion satisfied by mere layer presence
(field name unset) or mere field presence (expected value unset) terminates
evaluation immediately with overall result `true`; remaining criteria are
not evaluated. -/
theorem C4_eval_short_circuit_amended (pkt : Packet) (L f : String)
    (eo : Option PyVal) (c : Criterion) (rest : List Criterion) :
    (pkt.hasLayer L = true →
      PacketFilter.eval ((L, none, eo) :: rest) pkt = true) ∧
    (pkt.hasLayer L = true → ∀ v, pkt.getField L f = some v →
      PacketFilter.eval ((L, some f, (none : Option PyVal)) :: rest) pkt = true) ∧
    (evalCriterion pkt c = .stopFalse →
      PacketFilter.eval (c :: rest) pkt = false) ∧
    (evalCriterion pkt c = .cont →
      PacketFilter.eval (c :: rest) pkt = evalGo pkt rest) := by
  refine ⟨?_, ?_, ?_, ?_⟩
  · intro hL
    simp [PacketFilter.eval, evalGo, evalCriterion, hL]
  · intro hL v hv
    simp [PacketFilter.eval, evalGo, evalCriterion, hL, hv]
  · intro hc
    simp [PacketFilter.eval, evalGo, hc]
  · intro hc
    simp [PacketFilter.eval, evalGo, hc]

theorem C4_eval_short_circuit_witness :
    pktAvdtpEx.hasLayer "btavdtp" = true ∧
      PacketFilter.eval wildcardFilterEx pktAvdtpEx = true :=
  ⟨by decide,
    by
      have h := (C4_eval_short_circuit_amended pktAvdtpEx "btavdtp" "f" none
        ("x", none, none)
        [("bthfp", some "command_line_prefix", some (.strV "AT"))]).1 (by decide)
      exact h⟩

/-- C5 counterexample: an any-location key-field rule whose named field is
absent from the present layer still appends a value — Python's
`str(layer.get(field))` renders the missing field as the non-empty string
`"None"`, which passes the non-empty check. -/
theorem C5_absent_field_appended_counterexample :
    pktLayerNoFieldEx.getField "bthfp" "bthfp.at_cmd" = none ∧
      (keyFieldTrackerEx.addRelevantPacket pktLayerNoFieldEx true false).key_field_values
        = ["None"] := by
  decide

/-- C5 (amended): on an accepted record a key-field rule contributes only
when its extraction point matches the record's role, and the rendered
string `str(layer.get(field))` is appended exactly when it is non-empty —
an absent field renders as the non-empty string `"None"` and is therefore
appended, not skipped. -/
theorem C5_key_field_extraction_amended (L f : String) (spec : Int)
    (rest : List KeyField) (pkt : Packet) (s fin : Bool) (t : Tracker) :
    ((t.addRelevantPacket pkt s fin).key_field_values =
      t.key_field_values ++ extractKeyValues t.key_fields pkt s fin) ∧
    (extractKeyValues ((L, f, spec) :: rest) pkt s fin =
      (if keySpecFires spec s fin = true ∧ pkt.hasLayer L = true ∧
          pyStrOpt (pkt.getField L f) ≠ "" then
        [pyStrOpt (pkt.getField L f)]
      else []) ++ extractKeyValues rest pkt s fin) ∧
    (keySpecFires spec s fin = false →
      extractKeyValues ((L, f, spec) :: rest) pkt s fin =
        extractKeyValues rest pkt s fin) := by
  refine ⟨rfl, ?_, ?_⟩
  · by_cases h1 : keySpecFires spec s fin
    · by_cases h2 : pkt.hasLayer L
      · by_cases h3 : pyStrOpt (pkt.getField L f) ≠ ""
        · simp [extractKeyValues, h1, h2, h3]
        · simp [extractKeyValues, h1, h2, h3]
      · simp [extractKeyValues, h1, h2]
    · simp [extractKeyValues, h1]
  · intro h1
    simp [extractKeyValues, h1]

theorem C5_key_field_extraction_witness :
    keySpecFires PKT_LOCATION_FINISH true false = false ∧
      extractKeyValues [("bthfp", "bthfp.at_cmd", PKT_LOCATION_FINISH)]
          pktHfpEx true false =
        extractKeyValues [] pktHfpEx true false :=
  ⟨by decide,
    (C5_key_field_extraction_amended "bthfp" "bthfp.at_cmd" PKT_LOCATION_FINISH
      [] pktHfpEx true false keyFieldTrackerEx).2.2 (by decide)⟩

/-- C6: session construction never reaches the claimed outcomes.  With the
required two key-field values and a parseable positive handle the
constructor still raises `NotImplementedError` — the teardown tracker it
builds asks the factory for `"acl disconnect"`, which is not a key of the
specification table — and the same configuration error (not the claimed
recoverable construction error) results for a zero handle, which the
validation accepts because it only rejects an unparseable handle, never a
non-positive one. -/
theorem C6_constructor_config_error :
    mkBluetoothConnection aclConnEx = .error (.notImplemented "acl disconnect") ∧
      mkBluetoothConnection aclZeroHandleEx =
        .error (.notImplemented "acl disconnect") := by
  constructor <;> rfl

/-- Helper: a present field implies a present layer. -/
theorem hasLayer_of_getField (pkt : Packet) (L f v : String)
    (h : pkt.getField L f = some v) : pkt.hasLayer L = true := by
  unfold Packet.getField at h
  unfold Packet.hasLayer
  cases hl : pkt.layers.lookup L with
  | none => rw [hl] at h; simp at h
  | some fields => simp

/-- C7: filter matching degrades to `false` rather than raising: an absent
layer fails the criterion, an absent field (with the field name set) fails
the criterion, an expected-integer criterion whose field value does not
parse as a Python integer literal fails the criterion, and whenever the
criterion reached by in-order evaluation fails, `eval` returns `false`. -/
theorem C7_eval_graceful_failure (pkt : Packet) (L f v : String)
    (fo : Option String) (eo : Option PyVal) (n : Int) (c : Criterion)
    (pre rest : List Criterion) :
    (pkt.hasLayer L = false → evalCriterion pkt (L, fo, eo) = .stopFalse) ∧
    (pkt.hasLayer L = true → pkt.getField L f = none →
      evalCriterion pkt (L, some f, eo) = .stopFalse) ∧
    (pkt.getField L f = some v → pyIntParse v = none →
      evalCriterion pkt (L, some f, some (.intV n)) = .stopFalse) ∧
    ((∀ c' ∈ pre, evalCriterion pkt c' = .cont) →
      evalCriterion pkt c = .stopFalse →
      PacketFilter.eval (pre ++ c :: rest) pkt = false) := by
  refine ⟨?_, ?_, ?_, ?_⟩
  · intro hL
    simp [evalCriterion, hL]
  · intro hL hf
    simp [evalCriterion, hL, hf]
  · intro hf hp
    have hL := hasLayer_of_getField pkt L f v hf
    simp [evalCriterion, hL, hf, hp]
  · intro hpre hc
    induction pre with
    | nil =>
      simp [PacketFilter.eval, evalGo, hc]
    | cons c' pre' ih =>
      have hc' : evalCriterion pkt c' = .cont := hpre c' (by simp)
      have hrest : PacketFilter.eval (pre' ++ c :: rest) pkt = false :=
        ih (fun x hx => hpre x (by simp [hx]))
      have hne : pre' ++ c :: rest ≠ [] := by simp
      rw [PacketFilter.eval, if_neg (by simp)] at hrest ⊢
      simpa [evalGo, hc'] using hrest

theorem C7_eval_graceful_failure_witness :
    (∀ c' ∈ preContEx, evalCriterion pktHfpEx c' = .cont) ∧
      evalCriterion pktHfpEx cParseFailEx = .stopFalse ∧
      PacketFilter.eval (preContEx ++ cParseFailEx :: []) pktHfpEx = false :=
  ⟨by decide, by decide,
    (C7_eval_graceful_failure pktHfpEx "bthfp" "command_line_prefix" "AT"
        none none 5 cParseFailEx preContEx []).2.2.2 (by decide) (by decide)⟩

/-- C8: with an empty finish filter, a NOT_STARTED tracker receiving a
start-matching record reaches FINISHED within that same `update` call, its
start and finish times both equal the record's timestamp, and the record
counts as both start and finish for key-field extraction. -/
theorem C8_single_record_event (t : Tracker) (pkt : Packet)
    (h1 : t.state = EventState.not_started)
    (h2 : t.finish_filter = [])
    (h3 : PacketFilter.eval t.start_filter pkt = true) :
    (t.update pkt).state = EventState.finished ∧
    (t.update pkt).event_start_time = some pkt.sniff_timestamp ∧
    (t.update pkt).event_finish_time = some pkt.sniff_timestamp ∧
    (t.update pkt).key_field_values =
      t.key_field_values ++ extractKeyValues t.key_fields pkt true true := by
  have hempty : PacketFilter.is_empty t.finish_filter = true := by
    simp [PacketFilter.is_empty, h2]
  simp [Tracker.update, h1, h3, hempty, Tracker.moveToNextState,
    Tracker.addRelevantPacket]

theorem C8_single_record_event_witness :
    singleRecTrackerEx.state = EventState.not_started ∧
      singleRecTrackerEx.finish_filter = [] ∧
      PacketFilter.eval singleRecTrackerEx.start_filter pktHfpEx = true ∧
      ((singleRecTrackerEx.update pktHfpEx).state = EventState.finished ∧
        (singleRecTrackerEx.update pktHfpEx).event_start_time =
          some pktHfpEx.sniff_timestamp ∧
        (singleRecTrackerEx.update pktHfpEx).event_finish_time =
          some pktHfpEx.sniff_timestamp ∧
        (singleRecTrackerEx.update pktHfpEx).key_field_values =
          singleRecTrackerEx.key_field_values ++
            extractKeyValues singleRecTrackerEx.key_fields pktHfpEx true true) :=
  ⟨rfl, rfl, by decide,
    C8_single_record_event singleRecTrackerEx pktHfpEx rfl rfl (by decide)⟩

/-- C9: an open session offered a record with no extractable handle, or a
handle different from its own, reports "not mine" and is returned
completely unchanged — every tracker keeps its state, timestamps,
key-field values and relevant-record list. -/
theorem C9_mismatched_record_frame (c : Connection) (pkt : Packet)
    (hopen : c.is_disconnected = false)
    (hmiss : getConnectionHandle pkt = none ∨
      ∃ h, getConnectionHandle pkt = some h ∧ h ≠ c.connection_handle) :
    c.update pkt = .ok (false, c) := by
  unfold Connection.update
  rw [hopen]
  rcases hmiss with hnone | ⟨h, hsome, hne⟩
  · simp [hnone]
  · simp [hsome, hne]

theorem C9_mismatched_record_frame_witness :
    connC3Ex.is_disconnected = false ∧
      getConnectionHandle pktNoHandleEx = none ∧
      connC3Ex.update pktNoHandleEx = .ok (false, connC3Ex) :=
  ⟨rfl, rfl,
    C9_mismatched_record_frame connC3Ex pktNoHandleEx rfl (Or.inl rfl)⟩


/-- Helper: appending a block that satisfies `frontFinished` to fully
finished trackers preserves `frontFinished`. -/
theorem frontFinished_append (m l : List Tracker)
    (hm : ∀ t ∈ m, t.is_finished = true) (hl : frontFinished l = true) :
    frontFinished (m ++ l) = true := by
  induction m with
  | nil => simpa using hl
  | cons a m ih =>
    have ha : a.is_finished = true := hm a (by simp)
    have hrest := ih (fun t ht => hm t (by simp [ht]))
    simp [frontFinished, ha, hrest]

/-- Helper: all trackers before the last one are finished. -/
theorem mem_dropLast_finished (l : List Tracker) (h : frontFinished l = true) :
    ∀ t ∈ l.dropLast, t.is_finished = true := by
  induction l with
  | nil => intro t ht; simp at ht
  | cons a l ih =>
    cases l with
    | nil => intro t ht; simp at ht
    | cons b l' =>
      have h' : a.is_finished = true ∧ frontFinished (b :: l') = true := by
        simpa [frontFinished] using h
      intro t ht
      have ht' : t = a ∨ t ∈ (b :: l').dropLast := by
        simpa using ht
      rcases ht' with rfl | ht'
      · exact h'.1
      · exact ih h'.2 t ht'

/-- Helper: the tracker-list step of `BluetoothConnection.update` keeps
every non-final tracker finished. -/
theorem updateTrackerList_frontFinished (pkt : Packet) (ty : String)
    (l l' : List Tracker) (h : frontFinished l = true)
    (hr : updateTrackerList pkt ty l = .ok l') : frontFinished l' = true := by
  unfold updateTrackerList at hr
  cases hlast : l.getLast? with
  | none => rw [hlast] at hr; simp at hr
  | some evt =>
    rw [hlast] at hr
    dsimp only at hr
    by_cases hfin : (evt.update pkt).is_finished
    · rw [if_pos hfin] at hr
      cases hce : createEvent ty with
      | error e => rw [hce] at hr; simp at hr
      | ok fresh =>
        rw [hce] at hr
        simp only [Except.ok.injEq] at hr
        subst hr
        refine frontFinished_append _ _ (mem_dropLast_finished l h) ?_
        simp [frontFinished, hfin]
    · rw [if_neg hfin] at hr
      simp only [Except.ok.injEq] at hr
      subst hr
      refine frontFinished_append _ _ (mem_dropLast_finished l h) ?_
      simp [frontFinished]

/-- Helper: the dict loop of `BluetoothConnection.update` preserves the
per-list invariant. -/
theorem updateEventLists_frontFinished (pkt : Packet)
    (L L' : List (String × List Tracker))
    (h : ∀ p ∈ L, frontFinished p.2 = true)
    (hr : updateEventLists pkt L = .ok L') :
    ∀ p ∈ L', frontFinished p.2 = true := by
  induction L generalizing L' with
  | nil =>
    simp only [updateEventLists, Except.ok.injEq] at hr
    subst hr
    intro p hp; simp at hp
  | cons q rest ih =>
    obtain ⟨ty, l⟩ := q
    simp only [updateEventLists] at hr
    cases hu : updateTrackerList pkt ty l with
    | error e => rw [hu] at hr; simp at hr
    | ok l1 =>
      rw [hu] at hr
      cases hv : updateEventLists pkt rest with
      | error e => rw [hv] at hr; simp at hr
      | ok rest1 =>
        rw [hv] at hr
        simp only [Except.ok.injEq] at hr
        subst hr
        intro p hp
        rcases List.mem_cons.mp hp with rfl | hp
        · exact updateTrackerList_frontFinished pkt ty l l1
            (h (ty, l) (by simp)) hu
        · exact ih rest1 (fun x hx => h x (List.mem_cons_of_mem _ hx)) hv p hp

/-- Helper: `BluetoothConnection.update` preserves the per-list
invariant. -/
theorem connection_update_frontFinished (c : Connection) (pkt : Packet)
    (b : Bool) (c' : Connection)
    (h : ∀ p ∈ c.event_lists, frontFinished p.2 = true)
    (hr : c.update pkt = .ok (b, c')) :
    ∀ p ∈ c'.event_lists, frontFinished p.2 = true := by
  unfold Connection.update at hr
  by_cases hd : c.is_disconnected
  · rw [if_pos hd] at hr
    simp only [Except.ok.injEq, Prod.mk.injEq] at hr
    obtain ⟨-, h2⟩ := hr
    subst h2; exact h
  · rw [if_neg hd] at hr
    cases hh : getConnectionHandle pkt with
    | none =>
      rw [hh] at hr
      simp only [Except.ok.injEq, Prod.mk.injEq] at hr
      obtain ⟨-, h2⟩ := hr
      subst h2; exact h
    | some handle =>
      rw [hh] at hr
      dsimp only at hr
      by_cases heq : handle = c.connection_handle
      · rw [if_pos heq] at hr
        cases hu : updateEventLists pkt c.event_lists with
        | error e => rw [hu] at hr; simp at hr
        | ok lists =>
          rw [hu] at hr
          simp only [Except.ok.injEq, Prod.mk.injEq] at hr
          obtain ⟨-, h2⟩ := hr
          subst h2
          exact updateEventLists_frontFinished pkt c.event_lists lists h hu
      · rw [if_neg heq] at hr
        simp only [Except.ok.injEq, Prod.mk.injEq] at hr
        obtain ⟨-, h2⟩ := hr
        subst h2; exact h

/-- Helper: consuming any record stream preserves the per-list
invariant. -/
theorem consume_frontFinished (ps : List Packet) (c c' : Connection)
    (h : ∀ p ∈ c.event_lists, frontFinished p.2 = true)
    (hr : Connection.consume c ps = .ok c') :
    ∀ p ∈ c'.event_lists, frontFinished p.2 = true := by
  induction ps generalizing c with
  | nil =>
    simp only [Connection.consume, Except.ok.injEq] at hr
    subst hr; exact h
  | cons pkt rest ih =>
    simp only [Connection.consume] at hr
    cases hu : c.update pkt with
    | error e => rw [hu] at hr; simp at hr
    | ok r =>
      rw [hu] at hr
      obtain ⟨b, c1⟩ := r
      exact ih c1 (connection_update_frontFinished c pkt b c1 h hu) hr

/-- Helper: the constructor's per-type lists are singletons, which satisfy
the invariant. -/
theorem initEventLists_frontFinished (ks : List (String × EventSpec))
    (L : List (String × List Tracker)) (hr : initEventLists ks = .ok L) :
    ∀ p ∈ L, frontFinished p.2 = true := by
  induction ks generalizing L with
  | nil =>
    simp only [initEventLists, Except.ok.injEq] at hr
    subst hr
    intro p hp; simp at hp
  | cons q rest ih =>
    obtain ⟨k, spec⟩ := q
    simp only [initEventLists] at hr
    by_cases hacl : strContains k "acl "
    · rw [if_pos hacl] at hr
      exact ih L hr
    · rw [if_neg hacl] at hr
      cases hce : createEvent k with
      | error e => rw [hce] at hr; simp at hr
      | ok t =>
        rw [hce] at hr
        cases hrest : initEventLists rest with
        | error e => rw [hrest] at hr; simp at hr
        | ok tail =>
          rw [hrest] at hr
          simp only [Except.ok.injEq] at hr
          subst hr
          intro p hp
          rcases List.mem_cons.mp hp with rfl | hp
          · simp [frontFinished]
          · exact ih tail hrest p hp

/-- C10: in every per-event-type tracker list of a session, every tracker
except the last is FINISHED — the lists start as fresh singletons at
construction and `update` appends a fresh tracker the moment the last one
finishes, so the invariant holds at every point of any consumed record
stream. -/
theorem C10_tracker_list_invariant :
    (∀ (ks : List (String × EventSpec)) (L : List (String × List Tracker)),
      initEventLists ks = .ok L → ∀ p ∈ L, frontFinished p.2 = true) ∧
    (∀ (c c' : Connection) (ps : List Packet),
      (∀ p ∈ c.event_lists, frontFinished p.2 = true) →
      Connection.consume c ps = .ok c' →
      ∀ p ∈ c'.event_lists, frontFinished p.2 = true) :=
  ⟨initEventLists_frontFinished,
    fun c c' ps h hr => consume_frontFinished ps c c' h hr⟩

theorem C10_tracker_list_invariant_witness :
    (∀ p ∈ connC3Ex.event_lists, frontFinished p.2 = true) ∧
      Connection.consume connC3Ex [pktNoHandleEx] = .ok connC3Ex ∧
      (∀ p ∈ connC3Ex.event_lists, frontFinished p.2 = true) :=
  ⟨by decide, rfl,
    C10_tracker_list_invariant.2 connC3Ex connC3Ex [pktNoHandleEx]
      (by decide) rfl⟩

/-- Helper: when all non-final trackers are finished and the final one is
not, dropping the last element is the same as keeping the finished
ones. -/
theorem dropLast_eq_filter_finished (l : List Tracker)
    (h1 : frontFinished l = true) (h2 : lastNotFinished l = true) :
    l.dropLast = l.filter (fun t => t.is_finished) := by
  induction l with
  | nil => rfl
  | cons a l ih =>
    cases l with
    | nil =>
      have ha : a.is_finished = false := by
        simpa [lastNotFinished] using h2
      simp [List.filter, ha]
    | cons b l' =>
      have h1' : a.is_finished = true ∧ frontFinished (b :: l') = true := by
        simpa [frontFinished] using h1
      have h2' : lastNotFinished (b :: l') = true := by
        simpa [lastNotFinished, List.getLast?_cons_cons] using h2
      have := ih h1'.2 h2'
      simp [List.filter, h1'.1, List.dropLast_cons₂, this]

/-- Helper: the `get_events` accumulation over `[:-1]` slices equals the
accumulation over the finished instances, under the session invariant. -/
theorem foldl_dropLast_eq_filter (L : List (String × List Tracker))
    (h : ∀ p ∈ L, frontFinished p.2 = true ∧ lastNotFinished p.2 = true) :
    ∀ acc, L.foldl (fun acc p => acc ++ p.2.dropLast) acc =
      L.foldl (fun acc p => acc ++ p.2.filter (fun t => t.is_finished)) acc := by
  induction L with
  | nil => intro acc; rfl
  | cons p L ih =>
    intro acc
    have hp := h p (by simp)
    rw [List.foldl_cons, List.foldl_cons,
      dropLast_eq_filter_finished p.2 hp.1 hp.2]
    exact ih (fun q hq => h q (List.mem_cons_of_mem _ hq)) _

/-- C3 counterexample: a session whose only a2dp tracker is IN_PROGRESS
(not NOT_STARTED) emits an event list without it — `get_events` slices off
the last instance of each per-type list, so an in-progress instance is
excluded, not included. -/
theorem C3_in_progress_excluded_counterexample :
    tInProgressEx.state = EventState.in_progress ∧
      connC3Ex.event_lists = [("a2dp", [tInProgressEx])] ∧
      tInProgressEx ∉ connC3Ex.get_events := by
  refine ⟨rfl, rfl, ?_⟩
  decide

/-- C3 (amended): per session, `get_events` yields the link-establishment
event first, then every instance of each per-event-type list except the
final one — under the session invariant exactly the FINISHED instances
(the excluded final instance is the one that may be NOT_STARTED or
IN_PROGRESS) — sorted by start time, with the teardown event last if and
only if it is finished. -/
theorem C3_get_events_amended (c : Connection)
    (h : ∀ p ∈ c.event_lists,
      frontFinished p.2 = true ∧ lastNotFinished p.2 = true) :
    c.get_events =
      c.acl_connect_event ::
        (sortByStartTime
            (c.event_lists.foldl
              (fun acc p => acc ++ p.2.filter (fun t => t.is_finished)) []) ++
          (if c.acl_disconnect_event.is_finished then
            [c.acl_disconnect_event]
          else [])) := by
  unfold Connection.get_events
  rw [foldl_dropLast_eq_filter c.event_lists h []]
  by_cases hd : c.acl_disconnect_event.is_finished
  · simp [hd]
  · simp [hd]

theorem C3_get_events_amended_witness :
    (∀ p ∈ connC3WEx.event_lists,
        frontFinished p.2 = true ∧ lastNotFinished p.2 = true) ∧
      connC3WEx.get_events =
        connC3WEx.acl_connect_event ::
          (sortByStartTime
              (connC3WEx.event_lists.foldl
                (fun acc p => acc ++ p.2.filter (fun t => t.is_finished)) []) ++
            (if connC3WEx.acl_disconnect_event.is_finished then
              [connC3WEx.acl_disconnect_event]
            else [])) :=
  ⟨by decide, C3_get_events_amended connC3WEx (by decide)⟩
